import Mathlib

/-
Verification of the EnvironmentMonitor pipeline (src/main.go) against its
natural-language specification.

The Go program polls a BME280 sensor, averages readings over a fixed-size
window, and writes each averaged record to InfluxDB.  The relevant value
types come from the periph.io physic package:

  type Temperature int64        -- stored as nanoKelvin; Kelvin = 10^9,
                                -- ZeroCelsius = 273150 * MilliKelvin = 273.15 * 10^9
  type Pressure int64           -- stored as nanoPascal; Pascal = 10^9
  type RelativeHumidity int32   -- fixed point at a precision of 0.00001 %rH;
                                -- PercentRH = 100000

  type Env struct { Temperature Temperature; Pressure Pressure; Humidity RelativeHumidity }

Machine integers are modelled as mathematical Int together with explicit
wrap-around at the relevant width (two's-complement semantics of Go's
fixed-width signed integers).
-/

/-- Two's-complement wrap-around of an integer at width `w`:
the unique value congruent to `x` modulo `2 ^ w` lying in
`[-2 ^ (w - 1), 2 ^ (w - 1))`. -/
def wrap (w : Nat) (x : Int) : Int :=
  (x + 2 ^ (w - 1)) % 2 ^ w - 2 ^ (w - 1)

theorem wrap_addLeft (w : Nat) (x y : Int) :
    wrap w (wrap w x + y) = wrap w (x + y) := by
  unfold wrap
  have h1 : (x + 2 ^ (w - 1)) % 2 ^ w - 2 ^ (w - 1) + y + 2 ^ (w - 1)
      = (x + 2 ^ (w - 1)) % 2 ^ w + y := by ring
  have h2 : x + y + 2 ^ (w - 1) = x + 2 ^ (w - 1) + y := by ring
  rw [h1, h2, Int.add_emod, Int.emod_emod_of_dvd _ dvd_rfl, ← Int.add_emod]

theorem wrap_wrap (w : Nat) (x : Int) : wrap w (wrap w x) = wrap w x := by
  simpa using wrap_addLeft w x 0

theorem wrap_addRight (w : Nat) (x y : Int) :
    wrap w (x + wrap w y) = wrap w (x + y) := by
  rw [add_comm x (wrap w y), wrap_addLeft, add_comm]

theorem wrap_eq_self (w : Nat) (hw : 1 ≤ w) (x : Int)
    (h1 : -(2 ^ (w - 1)) ≤ x) (h2 : x < 2 ^ (w - 1)) : wrap w x = x := by
  unfold wrap
  have hm : (2 : Int) ^ w = 2 ^ (w - 1) * 2 := by
    rw [← pow_succ]
    congr 1
    omega
  have h0 : 0 ≤ x + 2 ^ (w - 1) := by linarith
  have hlt : x + 2 ^ (w - 1) < 2 ^ w := by rw [hm]; linarith
  rw [Int.emod_eq_of_lt h0 hlt]
  ring

/-- physic.Env: one environmental reading, in the internal sensor units
described at the top of the file (nanoKelvin / nanoPascal / 0.00001 %rH).
`temperature` and `pressure` are Go int64 values, `humidity` is int32. -/
structure Env where
  temperature : Int
  pressure : Int
  humidity : Int
deriving DecidableEq, Repr

/-- The zero value `physic.Env{}`. -/
def zeroEnv : Env := ⟨0, 0, 0⟩

/-- The three `total.X += env.X` statements of computeSum: fieldwise addition
with Go's fixed-width wrap-around (int64, int64, int32). -/
def addEnv (total env : Env) : Env :=
  { temperature := wrap 64 (total.temperature + env.temperature)
    pressure := wrap 64 (total.pressure + env.pressure)
    humidity := wrap 32 (total.humidity + env.humidity) }

/-- Mathematical (unwrapped) sum of the temperature fields of a list. -/
def sumT (l : List Env) : Int := (l.map Env.temperature).sum

/-- Mathematical (unwrapped) sum of the pressure fields of a list. -/
def sumP (l : List Env) : Int := (l.map Env.pressure).sum

/-- Mathematical (unwrapped) sum of the humidity fields of a list. -/
def sumH (l : List Env) : Int := (l.map Env.humidity).sum

/-- An Env whose fields are all in range of their machine widths. -/
def envWrap (e : Env) : Env :=
  ⟨wrap 64 e.temperature, wrap 64 e.pressure, wrap 32 e.humidity⟩

/-- One window's accumulation, starting from `physic.Env{}`. -/
def sumWindow (l : List Env) : Env := List.foldl addEnv zeroEnv l

/--
computeSum (src/main.go:43-66), run on the whole (finite) history of its
input channel; the end of the list models the channel being closed.  The
outer loop keeps accumulating windows of `steps` readings into `acc`
(with `i` readings consumed so far in the current window) and emits each
completed total; when a receive finds the channel closed it executes
`close(output); return`.  The returned Bool records whether computeSum
closed its output channel before returning (it does, on its only return
path).  Faithful for `steps ≥ 1`; for `steps ≤ 0` the Go loop never
terminates (see `computeSumWindow` for one iteration of it).
-/
def computeSumRun (steps : Nat) (acc : Env) (i : Nat) : List Env → List Env × Bool
  | [] => ([], true)
  | e :: es =>
    let acc2 := addEnv acc e
    if i + 1 < steps then
      computeSumRun steps acc2 (i + 1) es
    else
      let rest := computeSumRun steps zeroEnv 0 es
      (acc2 :: rest.1, rest.2)

/-- The totals emitted by computeSum over a finite input history. -/
def computeSumTotals (steps : Nat) (inputs : List Env) : List Env :=
  (computeSumRun steps zeroEnv 0 inputs).1

/--
One iteration of computeSum's outer loop (src/main.go:49-65), for an
arbitrary Go `int` window size `steps` (possibly zero or negative): the
inner loop `for i := 0; i < steps; i++` receives `max steps 0` readings.
Result: `(some total, remaining)` when a total is emitted, `(none, [])`
when the input channel is found closed mid-window (computeSum then closes
its output and returns, discarding the partial sum).  For `steps ≤ 0` the
inner loop body runs zero times and the zero-valued total is emitted
immediately, consuming no input.
-/
def computeSumWindow (steps : Int) (inputs : List Env) : Option Env × List Env :=
  if (inputs.length : Int) < steps then (none, [])
  else (some (List.foldl addEnv zeroEnv (inputs.take steps.toNat)), inputs.drop steps.toNat)

/-- Go's integer division, which truncates toward zero (and panics when the
divisor is zero; that case is handled by `normalizeTotal`). -/
def goDiv (a b : Int) : Int :=
  Int.sign a * Int.sign b * ((a.natAbs / b.natAbs : Nat) : Int)

/--
The normalization step of averageStream (src/main.go:76-82):
`divisor := int64(steps)` and each field is
`fieldType(int64(total.X) / divisor)`.  The int64-to-int32 conversion on
the humidity result wraps at 32 bits.  In Go, integer division by zero is
a run-time panic, modelled here as `none`.
-/
def normalizeTotal (steps : Nat) (total : Env) : Option Env :=
  if steps = 0 then none
  else some
    { temperature := wrap 64 (goDiv total.temperature (steps : Int))
      pressure := wrap 64 (goDiv total.pressure (steps : Int))
      humidity := wrap 32 (goDiv total.humidity (steps : Int)) }

/--
averageStream (src/main.go:68-85), run on the whole input history: it
starts computeSum on the internal `totals` channel, normalizes each total
and sends it on `averages`.  The Bool records whether averageStream closes
the `averages` channel before returning: its body contains no
`close(averages)`; when `totals` is exhausted the `range` loop ends and
the function simply returns.
-/
def averageStreamRun (steps : Nat) (inputs : List Env) : List Env × Bool :=
  ((computeSumTotals steps inputs).filterMap (normalizeTotal steps), false)

/-- A reading of 100 %rH (the sensor's full scale), i.e. `100 * PercentRH`
= 10^7 humidity ticks, with zero temperature and pressure. -/
def hum100 : Env := ⟨0, 0, 10000000⟩

/-! The Sink Writer (logToDatabase, src/main.go:87-110). -/

/-- The field map of the InfluxDB point built by logToDatabase.  Go computes
these in float64; they are modelled exactly over the rationals (each is a
quotient of integers by powers of ten, so the claims below do not hinge on
float rounding). -/
structure SinkPoint where
  temp : ℚ
  pressure : ℚ
  humidity : ℚ
deriving DecidableEq, Repr

/--
The unit conversions in the body of logToDatabase (src/main.go:97-99):
  temp     := data.Temperature.Celsius()            -- (t - ZeroCelsius) / Celsius
                                                    -- = (t - 273.15e9) / 1e9
  pressure := 0.01 * float64(data.Pressure) / float64(physic.Pascal)
  humidity := float64(data.Humidity) / float64(physic.PercentRH)
with ZeroCelsius = 273150000000, Celsius = Kelvin = 10^9, Pascal = 10^9,
PercentRH = 100000 (periph.io physic constants).
-/
def sinkPoint (data : Env) : SinkPoint :=
  { temp := ((data.temperature : ℚ) - 273150000000) / 1000000000
    pressure := (1 / 100) * (data.pressure : ℚ) / 1000000000
    humidity := (data.humidity : ℚ) / 100000 }

/-- The console output of one iteration of logToDatabase's loop:
`fmt.Print("Writing record"); fmt.Println(data)`.  This is the only message
the loop ever emits: the body contains no failure report of any kind. -/
inductive SinkLog where
  | writingRecord (data : Env)
deriving DecidableEq, Repr

/--
logToDatabase's loop (src/main.go:92-109) over a finite input history.
`writeOk` is the sink collaborator: whether `writeAPI.WritePoint` succeeds
for a given record.  The code discards WritePoint's error return value, so
the oracle is consulted and ignored: each record is logged once, converted
once, attempted once (the list of built points is the list of write
attempts, in order), and the loop continues to the next record in every
case — no retry, no halt, no failure report.
-/
def logToDatabaseRun (writeOk : Env → Bool) : List Env → List SinkPoint × List SinkLog
  | [] => ([], [])
  | data :: rest =>
    let p := sinkPoint data
    let _err := writeOk data
    let r := logToDatabaseRun writeOk rest
    (p :: r.1, SinkLog.writingRecord data :: r.2)

/-! Flag parsing (parseFlags, src/main.go:143-149).  flag.IntVar registers
an integer flag; flag.Parse uses the default ExitOnError error handling:
a value that fails to parse as an integer makes the process print the
error and exit with code 2 before main proceeds.  The parsed values are
not validated further: parseFlags has no positivity (or any other) check. -/

/-- Decimal digit-string accumulation: `none` on any non-digit character. -/
def parseDigitsAux : List Char → Nat → Option Nat
  | [], acc => some acc
  | c :: cs, acc =>
    if c.isDigit then parseDigitsAux cs (acc * 10 + (c.toNat - 48)) else none

/-- A non-empty all-digit string as a number, else `none`. -/
def parseDigits : List Char → Option Nat
  | [] => none
  | c :: cs => parseDigitsAux (c :: cs) 0

/-- strconv integer parsing as used by the flag package, modelled for plain
decimal inputs: an optional sign followed by at least one digit.  (The Go
parser also accepts base prefixes such as 0x, and rejects values outside
int64 range; neither matters for the decimal inputs in the claims.) -/
def parseGoInt (s : String) : Option Int :=
  match s.toList with
  | [] => none
  | c :: cs =>
    if c == '-' then (parseDigits cs).map (fun n => -(n : Int))
    else if c == '+' then (parseDigits cs).map (fun n => (n : Int))
    else (parseDigits (c :: cs)).map (fun n => (n : Int))

/-- One registered integer flag: absent means the default; a present value
that does not parse makes flag.Parse exit the process with code 2. -/
def parseFlagValue (dflt : Int) : Option String → Except Nat Int
  | none => Except.ok dflt
  | some s =>
    match parseGoInt s with
    | some n => Except.ok n
    | none => Except.error 2

/-- parseFlags (src/main.go:143-149): window defaults to 8, read_interval
defaults to 15; the parsed integers are returned with no validation. -/
def parseFlags (window read_interval : Option String) : Except Nat (Int × Int) :=
  match parseFlagValue 8 window with
  | Except.error c => Except.error c
  | Except.ok w =>
    match parseFlagValue 15 read_interval with
    | Except.error c => Except.error c
    | Except.ok r => Except.ok (w, r)

/-- Whether main reaches the point of starting the pipeline goroutines:
it does exactly when flag parsing did not exit the process. -/
def pipelineStarts (r : Except Nat (Int × Int)) : Bool :=
  match r with
  | Except.ok _ => true
  | Except.error _ => false

/-- The strings used as concrete flag values in the theorems below. -/
def strZero : String := "0"

def strNeg3 : String := "-3"

def strSeven : String := "7"

def strAbc : String := "abc"

/-! Shutdown and resource model (main, src/main.go:151-181).  main registers
four deferred calls, in this order: `bus.Close()`, `dev.Halt()`,
`close(logging)`, `close(averaged)`.  Go runs deferred calls in LIFO order
when the surrounding function returns — and does not run them at all when
the process exits via os.Exit (which is what log.Fatal calls after
printing its message). -/

/-- The four actions main defers. -/
inductive ShutdownEvent where
  | closeBus
  | haltDevice
  | closeLogging
  | closeAveraged
deriving DecidableEq, Repr

/-- main's deferred calls, in registration order (src/main.go:161-168). -/
def mainDefers : List ShutdownEvent :=
  [ShutdownEvent.closeBus, ShutdownEvent.haltDevice,
    ShutdownEvent.closeLogging, ShutdownEvent.closeAveraged]

/-- How a Go function's activation ends: a normal return, or os.Exit
with the given code (log.Fatal prints and calls os.Exit(1)). -/
inductive GoFuncEnd where
  | funcReturn
  | osExit (code : Nat)
deriving DecidableEq, Repr

/-- The deferred calls that actually execute: LIFO order on a normal
return; none at all on os.Exit. -/
def defersRun : GoFuncEnd → List ShutdownEvent → List ShutdownEvent
  | GoFuncEnd.funcReturn, ds => ds.reverse
  | GoFuncEnd.osExit _, _ => []

/-- The shutdown sequence on the signal path: pollInterval sees the signal
and returns, main returns, and main's deferred calls run in LIFO order. -/
def mainShutdownTrace : List ShutdownEvent :=
  defersRun GoFuncEnd.funcReturn mainDefers

/-- Event `a` happens strictly before event `b` in trace `tr`. -/
def happensBefore (a b : ShutdownEvent) (tr : List ShutdownEvent) : Prop :=
  tr.indexOf a < tr.indexOf b

/-- The ways the process can end. -/
inductive ExitPath where
  | normalSignal
  | hostInitFailure
  | busInitFailure
  | deviceInitFailure
  | sensorReadFailure
deriving DecidableEq, Repr

/-- The deferred calls registered by the time each exit path is taken
(src/main.go: host.Init and getBus fail before any defer is registered;
getDevice fails after `defer bus.Close()`; the sensor-read log.Fatal fires
with all four registered). -/
def registeredDefers : ExitPath → List ShutdownEvent
  | ExitPath.normalSignal => mainDefers
  | ExitPath.hostInitFailure => []
  | ExitPath.busInitFailure => []
  | ExitPath.deviceInitFailure => [ShutdownEvent.closeBus]
  | ExitPath.sensorReadFailure => mainDefers

/-- How the process ends on each path: only the signal path is a normal
return from main; every failure path goes through log.Fatal = os.Exit(1). -/
def exitEnd : ExitPath → GoFuncEnd
  | ExitPath.normalSignal => GoFuncEnd.funcReturn
  | _ => GoFuncEnd.osExit 1

/-- The shutdown actions (hence resource releases) that actually run on
each exit path. -/
def releasedOn (p : ExitPath) : List ShutdownEvent :=
  defersRun (exitEnd p) (registeredDefers p)

/-! The Sampler (readSensor and pollInterval, src/main.go:112-141). -/

/-- What the sensor collaborator does on one Sense call. -/
inductive SenseResult where
  | value (e : Env)
  | failure
deriving DecidableEq, Repr

/-- readSensor (src/main.go:112-121): on a Sense error it calls log.Fatal,
i.e. the process exits with code 1; otherwise the reading is printed and
sent on the logging channel. -/
def readSensorStep : SenseResult → Except Nat Env
  | SenseResult.value e => Except.ok e
  | SenseResult.failure => Except.error 1

/-- The readings of a failure-free prefix. -/
def senseValues : List SenseResult → List Env
  | [] => []
  | SenseResult.value e :: rs => e :: senseValues rs
  | SenseResult.failure :: rs => senseValues rs

/--
The tick loop of pollInterval (src/main.go:129-139) driving readSensor:
each tick calls the callable once; a failed Sense kills the whole process
via log.Fatal, so no later tick runs.  Given the sensor's behaviour on
each tick (were it consulted), returns the samples published to the
logging channel, the number of Sense calls actually attempted, and the
exit code if the process died.
-/
def runTicks : List SenseResult → List Env × Nat × Option Nat
  | [] => ([], 0, none)
  | r :: rs =>
    match readSensorStep r with
    | Except.ok e =>
      let p := runTicks rs
      (e :: p.1, p.2.1 + 1, p.2.2)
    | Except.error c => ([], 1, some c)

/-- time.NewTicker panics unless the duration is positive; modelled as
`none` for a non-positive duration. -/
def newTicker (d : Int) : Option Int :=
  if d ≤ 0 then none else some d

/-- pollInterval (src/main.go:123-141) hands its interval straight to
time.NewTicker, with no guard of its own. -/
def pollIntervalTicker (interval : Int) : Option Int :=
  newTicker interval

/-- The duration main builds from the parsed seconds value:
`time.Duration(read_interval_secs) * time.Second` (nanoseconds). -/
def mainTickerInterval (secs : Int) : Int :=
  secs * 1000000000

/-! Helper lemmas about the accumulation loop. -/

theorem addEnv_foldl : ∀ (l : List Env) (acc : Env), acc = envWrap acc →
    List.foldl addEnv acc l =
      ⟨wrap 64 (acc.temperature + sumT l), wrap 64 (acc.pressure + sumP l),
        wrap 32 (acc.humidity + sumH l)⟩ := by
  intro l
  induction l with
  | nil =>
    intro acc hacc
    simp only [List.foldl_nil, sumT, sumP, sumH, List.map_nil, List.sum_nil, add_zero]
    exact hacc
  | cons e es ih =>
    intro acc hacc
    rw [List.foldl_cons, ih (addEnv acc e) (by simp [addEnv, envWrap, wrap_wrap])]
    simp only [addEnv, sumT, sumP, sumH, List.map_cons, List.sum_cons]
    refine Env.mk.injEq _ _ _ _ _ _ |>.mpr ⟨?_, ?_, ?_⟩ <;>
      rw [wrap_addLeft] <;> ring_nf

theorem sumWindow_eq (l : List Env) :
    sumWindow l = ⟨wrap 64 (sumT l), wrap 64 (sumP l), wrap 32 (sumH l)⟩ := by
  have h := addEnv_foldl l zeroEnv (by decide)
  simpa [sumWindow, zeroEnv] using h

theorem computeSumRun_closes (steps : Nat) :
    ∀ (inputs : List Env) (acc : Env) (i : Nat),
      (computeSumRun steps acc i inputs).2 = true := by
  intro inputs
  induction inputs with
  | nil => intro acc i; rfl
  | cons e es ih =>
    intro acc i
    rw [computeSumRun]
    split
    · exact ih _ _
    · simpa using ih zeroEnv 0

theorem computeSumRun_window (steps : Nat) :
    ∀ (k : Nat), k + 1 ≤ steps → ∀ (inputs : List Env) (acc : Env),
      (computeSumRun steps acc (steps - 1 - k) inputs).1 =
        if inputs.length ≤ k then []
        else List.foldl addEnv acc (inputs.take (k + 1)) ::
          (computeSumRun steps zeroEnv 0 (inputs.drop (k + 1))).1 := by
  intro k
  induction k with
  | zero =>
    intro hk inputs acc
    cases inputs with
    | nil => simp [computeSumRun]
    | cons e es =>
      rw [computeSumRun]
      have hcond : ¬ (steps - 1 - 0 + 1 < steps) := by omega
      rw [if_neg hcond]
      simp
  | succ k ih =>
    intro hk inputs acc
    cases inputs with
    | nil => simp [computeSumRun]
    | cons e es =>
      rw [computeSumRun]
      have hcond : steps - 1 - (k + 1) + 1 < steps := by omega
      rw [if_pos hcond]
      have hidx : steps - 1 - (k + 1) + 1 = steps - 1 - k := by omega
      rw [hidx, ih (by omega) es (addEnv acc e)]
      have hlen : (e :: es).length ≤ k + 1 ↔ es.length ≤ k := by simp
      by_cases h : es.length ≤ k
      · simp [h, hlen.mpr h]
      · simp only [if_neg h, if_neg (fun hc => h (hlen.mp hc))]
        rw [List.take_succ_cons, List.foldl_cons, List.drop_succ_cons]

theorem computeSumRun_chunk (steps : Nat) (h : 1 ≤ steps) (inputs : List Env) :
    (computeSumRun steps zeroEnv 0 inputs).1 =
      if inputs.length < steps then []
      else sumWindow (inputs.take steps) ::
        (computeSumRun steps zeroEnv 0 (inputs.drop steps)).1 := by
  have hz : steps - 1 - (steps - 1) = 0 := by omega
  have hw := computeSumRun_window steps (steps - 1) (by omega) inputs zeroEnv
  rw [hz] at hw
  have hs : steps - 1 + 1 = steps := by omega
  rw [hs] at hw
  rw [hw]
  have hiff : inputs.length ≤ steps - 1 ↔ inputs.length < steps := by omega
  by_cases hlen : inputs.length < steps
  · rw [if_pos (hiff.mpr hlen), if_pos hlen]
  · rw [if_neg (fun hc => hlen (hiff.mp hc)), if_neg hlen]
    rfl

theorem computeSumTotals_length (steps : Nat) (h : 1 ≤ steps) :
    ∀ (inputs : List Env), (computeSumTotals steps inputs).length = inputs.length / steps := by
  have H : ∀ (n : Nat) (inputs : List Env), inputs.length ≤ n →
      (computeSumTotals steps inputs).length = inputs.length / steps := by
    intro n
    induction n with
    | zero =>
      intro inputs hlen
      have : inputs = [] := List.eq_nil_of_length_eq_zero (by omega)
      subst this
      simp [computeSumTotals, computeSumRun]
    | succ n ih =>
      intro inputs hlen
      unfold computeSumTotals
      rw [computeSumRun_chunk steps h inputs]
      by_cases hcase : inputs.length < steps
      · rw [if_pos hcase, Nat.div_eq_of_lt hcase]
        rfl
      · have hge : steps ≤ inputs.length := by omega
        rw [if_neg hcase, List.length_cons]
        have ihdrop := ih (inputs.drop steps) (by simp; omega)
        unfold computeSumTotals at ihdrop
        rw [ihdrop, List.length_drop]
        rw [Nat.div_eq_sub_div (by omega) hge]
  intro inputs
  exact H inputs.length inputs le_rfl

theorem filterMap_normalizeTotal (steps : Nat) (h : 1 ≤ steps) (l : List Env) :
    l.filterMap (normalizeTotal steps) =
      l.map (fun t => Env.mk (wrap 64 (goDiv t.temperature (steps : Int)))
        (wrap 64 (goDiv t.pressure (steps : Int)))
        (wrap 32 (goDiv t.humidity (steps : Int)))) := by
  have hs : steps ≠ 0 := by omega
  rw [← List.filterMap_eq_map]
  congr 1
  funext t
  simp [normalizeTotal, hs]

theorem goDiv_bounds (a b B : Int) (hb : 0 < b) (h1 : -B ≤ a) (h2 : a < B) :
    -B ≤ goDiv a b ∧ goDiv a b < B := by
  have hB : 0 < B := by omega
  have hsb : Int.sign b = 1 := Int.sign_eq_one_iff_pos.mpr hb
  have hdnn : (0 : Int) ≤ ((a.natAbs / b.natAbs : Nat) : Int) := Int.ofNat_nonneg _
  have hdle : ((a.natAbs / b.natAbs : Nat) : Int) ≤ (a.natAbs : Int) := by
    exact_mod_cast Nat.div_le_self _ _
  unfold goDiv
  rcases lt_trichotomy a 0 with hneg | hzero | hpos
  · have hsa : Int.sign a = -1 := Int.sign_eq_neg_one_iff_neg.mpr hneg
    have habs : ((a.natAbs : Int)) = -a := Int.ofNat_natAbs_of_nonpos (le_of_lt hneg)
    rw [hsa, hsb]
    constructor
    · nlinarith
    · nlinarith
  · subst hzero
    simp
    omega
  · have hsa : Int.sign a = 1 := Int.sign_eq_one_iff_pos.mpr hpos
    have habs : ((a.natAbs : Int)) = a := Int.natAbs_of_nonneg (le_of_lt hpos)
    rw [hsa, hsb]
    constructor
    · nlinarith
    · nlinarith

theorem sumT_replicate (n : Nat) (e : Env) :
    sumT (List.replicate n e) = n * e.temperature := by
  simp [sumT, List.map_replicate, List.sum_replicate, nsmul_eq_mul]

theorem sumP_replicate (n : Nat) (e : Env) :
    sumP (List.replicate n e) = n * e.pressure := by
  simp [sumP, List.map_replicate, List.sum_replicate, nsmul_eq_mul]

theorem sumH_replicate (n : Nat) (e : Env) :
    sumH (List.replicate n e) = n * e.humidity := by
  simp [sumH, List.map_replicate, List.sum_replicate, nsmul_eq_mul]

theorem computeSumTotals_whole (steps : Nat) (inputs : List Env)
    (hsteps : 1 ≤ steps) (hlen : inputs.length = steps) :
    computeSumTotals steps inputs =
      [⟨wrap 64 (sumT inputs), wrap 64 (sumP inputs), wrap 32 (sumH inputs)⟩] := by
  unfold computeSumTotals
  rw [computeSumRun_chunk steps hsteps inputs]
  rw [if_neg (by omega)]
  have htake : inputs.take steps = inputs := by
    rw [← hlen]
    exact List.take_length inputs
  have hdrop : inputs.drop steps = [] := by
    rw [← hlen, List.drop_length]
  rw [htake, hdrop, sumWindow_eq]
  rfl

/-! Claim C1. -/

/--
Claim C1, amended: for every window size N ≥ 1 and every sequence of N
input readings WHOSE FIELD-WISE SUMS FIT IN THE PER-SAMPLE FIELD TYPES
(int64 for temperature and pressure, int32 for humidity), the Window
Averager emits exactly one averaged record in which each field equals the
field-wise sum of the N inputs divided by N using truncating integer
division.  The restriction is forced: the accumulator has the same width
as the fields, so the claim as stated fails when a sum overflows (see the
counterexample).
-/
theorem claim_C1 (steps : Nat) (inputs : List Env)
    (hsteps : 1 ≤ steps) (hlen : inputs.length = steps)
    (hT1 : -(2 ^ 63) ≤ sumT inputs) (hT2 : sumT inputs < 2 ^ 63)
    (hP1 : -(2 ^ 63) ≤ sumP inputs) (hP2 : sumP inputs < 2 ^ 63)
    (hH1 : -(2 ^ 31) ≤ sumH inputs) (hH2 : sumH inputs < 2 ^ 31) :
    (averageStreamRun steps inputs).1 =
      [⟨goDiv (sumT inputs) (steps : Int), goDiv (sumP inputs) (steps : Int),
        goDiv (sumH inputs) (steps : Int)⟩] := by
  have hb : (0 : Int) < (steps : Int) := by exact_mod_cast hsteps
  have qT := goDiv_bounds (sumT inputs) (steps : Int) (2 ^ 63) hb hT1 hT2
  have qP := goDiv_bounds (sumP inputs) (steps : Int) (2 ^ 63) hb hP1 hP2
  have qH := goDiv_bounds (sumH inputs) (steps : Int) (2 ^ 31) hb hH1 hH2
  simp only [averageStreamRun]
  rw [computeSumTotals_whole steps inputs hsteps hlen,
    filterMap_normalizeTotal steps hsteps]
  simp only [List.map_cons, List.map_nil]
  rw [wrap_eq_self 64 (by norm_num) (sumT inputs) hT1 hT2,
    wrap_eq_self 64 (by norm_num) (sumP inputs) hP1 hP2,
    wrap_eq_self 32 (by norm_num) (sumH inputs) hH1 hH2,
    wrap_eq_self 64 (by norm_num) _ qT.1 qT.2,
    wrap_eq_self 64 (by norm_num) _ qP.1 qP.2,
    wrap_eq_self 32 (by norm_num) _ qH.1 qH.2]

/--
Witness for claim C1: window size 3 and three concrete readings give
exactly one averaged record with the truncated field-wise means.
-/
theorem claim_C1_witness :
    (averageStreamRun 3 [⟨10, 20, 30⟩, ⟨11, 22, 33⟩, ⟨12, 24, 36⟩]).1 =
      [⟨11, 22, 33⟩] := by
  rw [claim_C1 3 [⟨10, 20, 30⟩, ⟨11, 22, 33⟩, ⟨12, 24, 36⟩] (by decide) (by decide)
    (by decide) (by decide) (by decide) (by decide) (by decide) (by decide)]
  decide

/--
Counterexample to claim C1 as stated: 215 readings of 100 %rH
(10^7 humidity ticks each, all perfectly valid sensor values) overflow the
int32 humidity accumulator — the emitted "average" humidity is -9976592
ticks, not the true truncated mean 10^7 ticks.
-/
theorem claim_C1_counterexample :
    (averageStreamRun 215 (List.replicate 215 hum100)).1 = [⟨0, 0, -9976592⟩] ∧
    goDiv (sumH (List.replicate 215 hum100)) 215 = 10000000 ∧
    ((-9976592 : Int) = 10000000 → False) := by
  refine ⟨?_, ?_, by decide⟩
  · simp only [averageStreamRun]
    rw [computeSumTotals_whole 215 (List.replicate 215 hum100) (by norm_num) (List.length_replicate 215 hum100),
      sumT_replicate, sumP_replicate, sumH_replicate]
    decide
  · rw [sumH_replicate]
    decide

/-! Claim C6. -/

/--
Claim C6, amended: the Averager's summation accumulates each field in the
per-sample field type ITSELF — int64 for temperature and pressure, int32
for humidity, wrapping at those same widths — not in a strictly wider
intermediate type, so summing N samples CAN overflow the accumulator.
For a full window the emitted total is the field-wise mathematical sum
wrapped at the per-sample widths 64/64/32.
-/
theorem claim_C6 (steps : Nat) (inputs : List Env)
    (hsteps : 1 ≤ steps) (hlen : inputs.length = steps) :
    computeSumTotals steps inputs =
      [⟨wrap 64 (sumT inputs), wrap 64 (sumP inputs), wrap 32 (sumH inputs)⟩] :=
  computeSumTotals_whole steps inputs hsteps hlen

/--
Witness for claim C6: a window of two concrete readings is accumulated to
the wrapped field-wise sums (wrap at widths 64/64/32).
-/
theorem claim_C6_witness :
    computeSumTotals 2 [⟨1, 2, 3⟩, ⟨4, 5, 6⟩] =
      [⟨wrap 64 (sumT [⟨1, 2, 3⟩, ⟨4, 5, 6⟩]), wrap 64 (sumP [⟨1, 2, 3⟩, ⟨4, 5, 6⟩]),
        wrap 32 (sumH [⟨1, 2, 3⟩, ⟨4, 5, 6⟩])⟩] :=
  claim_C6 2 [⟨1, 2, 3⟩, ⟨4, 5, 6⟩] (by decide) (by decide)

/--
Counterexample to claim C6 as stated: 300 valid readings of 100 %rH sum
to 3000000000 humidity ticks, but the accumulated total is -1294967296 —
the int32 accumulator overflowed, so summation is NOT performed in a type
strictly wider than the per-sample field type.
-/
theorem claim_C6_counterexample :
    computeSumTotals 300 (List.replicate 300 hum100) = [⟨0, 0, -1294967296⟩] ∧
    sumH (List.replicate 300 hum100) = 3000000000 ∧
    ((-1294967296 : Int) = 3000000000 → False) := by
  refine ⟨?_, ?_, by decide⟩
  · rw [computeSumTotals_whole 300 (List.replicate 300 hum100) (by norm_num) (List.length_replicate 300 hum100),
      sumT_replicate, sumP_replicate, sumH_replicate]
    decide
  · rw [sumH_replicate]
    decide

/-! Claim C7. -/

/--
Claim C7, amended: for every window size N ≥ 1 and input stream, the
Averager emits one record per COMPLETED window only — a partial window
(fewer than N readings since the last emission) is discarded and nothing
is emitted for it; in particular a stream shorter than N produces no
output at all.  computeSum does close the internal totals channel on its
only return path, but averageStream does NOT close its own output channel
(the averages channel): it simply returns, and closure of the averages
channel is left to main's deferred close.
-/
theorem claim_C7 (steps : Nat) (inputs : List Env) (hsteps : 1 ≤ steps) :
    (averageStreamRun steps inputs).1.length = inputs.length / steps ∧
    (inputs.length < steps → (averageStreamRun steps inputs).1 = []) ∧
    (averageStreamRun steps inputs).2 = false ∧
    (computeSumRun steps zeroEnv 0 inputs).2 = true := by
  have hlen : (averageStreamRun steps inputs).1.length = inputs.length / steps := by
    simp only [averageStreamRun]
    rw [filterMap_normalizeTotal steps hsteps, List.length_map]
    exact computeSumTotals_length steps hsteps inputs
  refine ⟨hlen, ?_, rfl, computeSumRun_closes steps inputs zeroEnv 0⟩
  intro hlt
  have h0 := hlen
  rw [Nat.div_eq_of_lt hlt] at h0
  exact List.eq_nil_of_length_eq_zero h0

/--
Witness for claim C7: window size 3 with four readings emits exactly one
record (the leftover partial window of one reading is discarded) and
averageStream does not close its output channel.
-/
theorem claim_C7_witness :
    (averageStreamRun 3 [⟨1, 1, 1⟩, ⟨2, 2, 2⟩, ⟨3, 3, 3⟩, ⟨4, 4, 4⟩]).1.length = 1 ∧
    (averageStreamRun 3 [⟨1, 1, 1⟩, ⟨2, 2, 2⟩, ⟨3, 3, 3⟩, ⟨4, 4, 4⟩]).2 = false := by
  have h := claim_C7 3 [⟨1, 1, 1⟩, ⟨2, 2, 2⟩, ⟨3, 3, 3⟩, ⟨4, 4, 4⟩] (by decide)
  exact ⟨h.1, h.2.2.1⟩

/--
Counterexample to claim C7 as stated: when the input closes after a single
reading with window size 3, no record is emitted (true), but the Averager
does NOT close its output channel — averageStream contains no
close(averages) call, so the claimed closure/propagation does not happen
in this stage.
-/
theorem claim_C7_counterexample :
    (averageStreamRun 3 [⟨1, 2, 3⟩]).1 = [] ∧
    ((averageStreamRun 3 [⟨1, 2, 3⟩]).2 = true → False) := by
  decide

/-! Claims about the Sink Writer. -/

theorem logToDatabaseRun_eq (writeOk : Env → Bool) :
    ∀ (l : List Env),
      logToDatabaseRun writeOk l = (l.map sinkPoint, l.map SinkLog.writingRecord) := by
  intro l
  induction l with
  | nil => rfl
  | cons d ds ih => simp [logToDatabaseRun, ih]

/--
Claim C2, amended: for every record consumed by the Sink Writer, the point
handed to the sink has its temperature converted to Celsius and its
pressure converted to hectopascal, but its humidity is converted to
PERCENT relative humidity (a 0-100 value), NOT to a 0-1 fraction; the
conversions happen inside the Sink Writer and nowhere earlier — the
records reaching it from the Averager are in internal sensor units and
sinkPoint is applied to each exactly once, at the sink boundary.
-/
theorem claim_C2 (d : Env) (h1 : 0 ≤ d.humidity) (h2 : d.humidity ≤ 100 * 100000) :
    (sinkPoint d).temp = ((d.temperature : ℚ) - 273150000000) / 1000000000 ∧
    (sinkPoint d).pressure = (d.pressure : ℚ) / 100000000000 ∧
    (sinkPoint d).humidity = (d.humidity : ℚ) / 100000 ∧
    0 ≤ (sinkPoint d).humidity ∧ (sinkPoint d).humidity ≤ 100 ∧
    (∀ (writeOk : Env → Bool) (steps : Nat) (inputs : List Env),
      (logToDatabaseRun writeOk (averageStreamRun steps inputs).1).1 =
        ((averageStreamRun steps inputs).1).map sinkPoint) := by
  have hq1 : (0 : ℚ) ≤ (d.humidity : ℚ) := by exact_mod_cast h1
  have hq2 : (d.humidity : ℚ) ≤ 10000000 := by exact_mod_cast h2
  refine ⟨rfl, ?_, rfl, ?_, ?_, ?_⟩
  · show (1 / 100) * (d.pressure : ℚ) / 1000000000 = (d.pressure : ℚ) / 100000000000
    ring
  · exact div_nonneg hq1 (by norm_num)
  · show (d.humidity : ℚ) / 100000 ≤ 100
    rw [div_le_iff₀ (by norm_num)]
    linarith
  · intro writeOk steps inputs
    rw [logToDatabaseRun_eq]

/--
Witness for claim C2: a concrete averaged record at 0 °C, 1000 hPa and
25 %rH in internal units is converted to sink values (0, 1000, 25).
-/
theorem claim_C2_witness :
    (sinkPoint ⟨273150000000, 100000000000000, 2500000⟩).pressure =
      ((⟨273150000000, 100000000000000, 2500000⟩ : Env).pressure : ℚ) / 100000000000 ∧
    0 ≤ (sinkPoint ⟨273150000000, 100000000000000, 2500000⟩).humidity ∧
    (sinkPoint ⟨273150000000, 100000000000000, 2500000⟩).humidity ≤ 100 :=
  ⟨(claim_C2 ⟨273150000000, 100000000000000, 2500000⟩ (by decide) (by decide)).2.1,
    (claim_C2 ⟨273150000000, 100000000000000, 2500000⟩ (by decide) (by decide)).2.2.2.1,
    (claim_C2 ⟨273150000000, 100000000000000, 2500000⟩ (by decide) (by decide)).2.2.2.2.1⟩

/--
Counterexample to claim C2 as stated: a record at 50 %rH (5000000 internal
ticks) is handed to the sink with humidity value 50 — percent, not a
fraction in the range 0 to 1.
-/
theorem claim_C2_counterexample :
    (sinkPoint ⟨0, 0, 5000000⟩).humidity = 50 ∧
    ((sinkPoint ⟨0, 0, 5000000⟩).humidity ≤ 1 → False) := by
  constructor
  · norm_num [sinkPoint]
  · intro h
    norm_num [sinkPoint] at h

/--
Claim C4, amended: a sink write failure is NOT reported — logToDatabase
discards WritePoint's error value, so its behaviour is identical whether
writes fail or succeed.  The failed record is dropped without retry, the
pipeline is not halted, and every record (including each one after a
failure) is logged, converted and attempted exactly once, in order.
-/
theorem claim_C4 (writeOk : Env → Bool) (records : List Env) :
    (logToDatabaseRun writeOk records).1 = records.map sinkPoint ∧
    (logToDatabaseRun writeOk records).2 = records.map SinkLog.writingRecord ∧
    logToDatabaseRun writeOk records = logToDatabaseRun (fun _ => true) records := by
  have h1 := logToDatabaseRun_eq writeOk records
  have h2 := logToDatabaseRun_eq (fun _ => true) records
  exact ⟨by rw [h1], by rw [h1], by rw [h1, h2]⟩

/--
Counterexample to claim C4 as stated: with every write failing, the run
over two records is indistinguishable from a run with every write
succeeding — no failure is ever reported (logged); the only log lines are
the unconditional per-record "Writing record" messages, and both records
are still attempted.
-/
theorem claim_C4_counterexample :
    logToDatabaseRun (fun _ => false) [⟨1, 2, 3⟩, ⟨4, 5, 6⟩] =
      logToDatabaseRun (fun _ => true) [⟨1, 2, 3⟩, ⟨4, 5, 6⟩] ∧
    (logToDatabaseRun (fun _ => false) [⟨1, 2, 3⟩, ⟨4, 5, 6⟩]).2 =
      [SinkLog.writingRecord ⟨1, 2, 3⟩, SinkLog.writingRecord ⟨4, 5, 6⟩] ∧
    (logToDatabaseRun (fun _ => false) [⟨1, 2, 3⟩, ⟨4, 5, 6⟩]).1 =
      [sinkPoint ⟨1, 2, 3⟩, sinkPoint ⟨4, 5, 6⟩] := by
  refine ⟨?_, ?_, ?_⟩
  · rw [logToDatabaseRun_eq, logToDatabaseRun_eq]
  · rw [logToDatabaseRun_eq]
    rfl
  · rw [logToDatabaseRun_eq]
    rfl

/-! Claims about configuration parsing. -/

/--
Claim C5, amended: a non-numeric flag value makes the process exit with
code 2 (the flag package's ExitOnError behaviour) before the pipeline
starts, but there is NO positivity validation: every integer the parser
accepts — zero and negative values included — is returned by parseFlags
and the pipeline is started with it.
-/
theorem claim_C5 (s : String) :
    (parseGoInt s = none →
      parseFlags (some s) none = Except.error 2 ∧
      pipelineStarts (parseFlags (some s) none) = false) ∧
    (∀ n : Int, parseGoInt s = some n →
      parseFlags (some s) none = Except.ok (n, 15) ∧
      pipelineStarts (parseFlags (some s) none) = true) := by
  constructor
  · intro h
    simp [parseFlags, parseFlagValue, h, pipelineStarts]
  · intro n h
    simp [parseFlags, parseFlagValue, h, pipelineStarts]

/--
Witness for claim C5: the non-numeric value "abc" exits with code 2 and
the numeric value "7" is accepted with the default interval 15.
-/
theorem claim_C5_witness :
    parseFlags (some strAbc) none = Except.error 2 ∧
    parseFlags (some strSeven) none = Except.ok (7, 15) :=
  ⟨((claim_C5 strAbc).1 (by decide)).1, ((claim_C5 strSeven).2 7 (by decide)).1⟩

/--
Counterexample to claim C5 as stated: the non-positive window values "-3"
and "0" are accepted without any configuration error, and the pipeline
starts with them.
-/
theorem claim_C5_counterexample :
    parseFlags (some strNeg3) none = Except.ok (-3, 15) ∧
    pipelineStarts (parseFlags (some strNeg3) none) = true ∧
    parseFlags (some strZero) none = Except.ok (0, 15) := by
  refine ⟨rfl, rfl, rfl⟩

/-! Claims about shutdown and resources. -/

/--
Claim C3, amended: on receipt of a termination signal pollInterval
returns, main returns, and main's deferred calls run in LIFO order — so
the shutdown sequence is: the averaged channel (the Averager's output) is
closed FIRST, then the logging channel (the Sampler's output), then the
device is halted, then the bus is closed.  Shutdown is not propagated
stage by stage: averageStream never closes its own output channel (no
close(averages) exists in its body), and the Averager's output channel is
closed BEFORE the Sampler's.
-/
theorem claim_C3 :
    mainShutdownTrace =
      [ShutdownEvent.closeAveraged, ShutdownEvent.closeLogging,
        ShutdownEvent.haltDevice, ShutdownEvent.closeBus] ∧
    (∀ (steps : Nat) (inputs : List Env), (averageStreamRun steps inputs).2 = false) :=
  ⟨rfl, fun _ _ => rfl⟩

/--
Counterexample to claim C3 as stated: in the shutdown trace the Averager's
output channel (averaged) is closed strictly BEFORE the Sampler's output
channel (logging), because main's deferred closes run in LIFO order —
contradicting "the Averager's output channel is never closed before the
Sampler's output channel".
-/
theorem claim_C3_counterexample :
    happensBefore ShutdownEvent.closeAveraged ShutdownEvent.closeLogging
      mainShutdownTrace := by
  simp only [happensBefore]
  decide

/--
Claim C8, amended: the device and bus handles are released exactly on the
normal signal-shutdown path, where main returns and its deferred calls
run.  On every log.Fatal path — including the fatal path taken when an
individual sensor read fails — the process exits via os.Exit, deferred
calls do not run, and neither the device nor the bus is released.
-/
theorem claim_C8 (p : ExitPath) :
    (ShutdownEvent.haltDevice ∈ releasedOn p ∧ ShutdownEvent.closeBus ∈ releasedOn p) ↔
      p = ExitPath.normalSignal := by
  cases p <;> decide

/--
Counterexample to claim C8 as stated: on the fatal sensor-read path
nothing at all is released — log.Fatal calls os.Exit, which skips the
deferred bus.Close() and dev.Halt().
-/
theorem claim_C8_counterexample :
    releasedOn ExitPath.sensorReadFailure = [] ∧
    (ShutdownEvent.closeBus ∈ releasedOn ExitPath.sensorReadFailure → False) ∧
    (ShutdownEvent.haltDevice ∈ releasedOn ExitPath.sensorReadFailure → False) := by
  refine ⟨rfl, ?_, ?_⟩ <;> decide

/-! Claim C9. -/

/--
Claim C9: if the Sense call on some tick fails (all earlier ticks having
succeeded), the process terminates immediately with exit code 1: the
failing read is attempted exactly once — no retry — and no further sensor
reads are attempted after the failure, regardless of how many ticks would
have followed.
-/
theorem claim_C9 (pre post : List SenseResult)
    (hpre : ∀ r ∈ pre, r ≠ SenseResult.failure) :
    runTicks (pre ++ SenseResult.failure :: post) =
      (senseValues pre, pre.length + 1, some 1) := by
  induction pre with
  | nil => rfl
  | cons r rs ih =>
    have hr : r ≠ SenseResult.failure := hpre r (by simp)
    cases r with
    | failure => exact absurd rfl hr
    | value e =>
      have hrec := ih (fun x hx => hpre x (by simp [hx]))
      simp [runTicks, readSensorStep, senseValues, hrec]

/--
Witness for claim C9: one successful read, then a failure, then one more
scheduled tick — only two Sense calls are attempted and the process dies
with exit code 1; the reading scheduled after the failure is never read.
-/
theorem claim_C9_witness :
    runTicks [SenseResult.value ⟨1, 2, 3⟩, SenseResult.failure,
      SenseResult.value ⟨4, 5, 6⟩] = ([⟨1, 2, 3⟩], 2, some 1) :=
  claim_C9 [SenseResult.value ⟨1, 2, 3⟩] [SenseResult.value ⟨4, 5, 6⟩] (by decide)

/-! Claim C10. -/

/--
Claim C10: positivity of the two parameters is an unchecked precondition:
parseFlags returns any parsed integer (zero included) unvalidated; with
window size 0, one iteration of computeSum's outer loop runs its inner
loop body zero times and emits the zero-valued total immediately while
consuming no input; averageStream's normalization then divides by
divisor = 0, an integer division by zero (a Go run-time panic, modelled as
none); and pollInterval hands main's unguarded duration
`time.Duration(secs) * time.Second` straight to time.NewTicker, which
panics for every non-positive duration.
-/
theorem claim_C10 :
    (∀ (s : String) (n : Int), parseGoInt s = some n →
      parseFlags (some s) none = Except.ok (n, 15)) ∧
    (∀ inputs : List Env, computeSumWindow 0 inputs = (some zeroEnv, inputs)) ∧
    normalizeTotal 0 zeroEnv = none ∧
    (∀ secs : Int, secs ≤ 0 → pollIntervalTicker (mainTickerInterval secs) = none) := by
  refine ⟨?_, ?_, rfl, ?_⟩
  · intro s n h
    simp [parseFlags, parseFlagValue, h]
  · intro inputs
    have hc : ¬ ((inputs.length : Int) < 0) := not_lt.mpr (Int.ofNat_nonneg _)
    unfold computeSumWindow
    rw [if_neg hc]
    simp [zeroEnv]
  · intro secs hs
    have hle : mainTickerInterval secs ≤ 0 := by
      have := mul_le_mul_of_nonneg_right hs (by norm_num : (0 : Int) ≤ 1000000000)
      simpa [mainTickerInterval] using this
    simp [pollIntervalTicker, newTicker, hle]

/--
Witness for claim C10: window flag value "0" is accepted as 0, a window of
size 0 immediately emits the zero total consuming nothing, normalization
by 0 is a division by zero, and interval 0 makes time.NewTicker panic.
-/
theorem claim_C10_witness :
    parseFlags (some strZero) none = Except.ok (0, 15) ∧
    computeSumWindow 0 [hum100] = (some zeroEnv, [hum100]) ∧
    pollIntervalTicker (mainTickerInterval 0) = none :=
  ⟨claim_C10.1 strZero 0 (by decide), claim_C10.2.1 [hum100],
    claim_C10.2.2.2 0 (by decide)⟩
